import Mathlib

/-
Shallow embedding of `src/barcodes.py`: a script that loads inventory
records (serial, device_name) from a SQLite database, generates one
Code-128 barcode image per record into a scratch directory, and lays the
records out into a two-column PDF table.

External effects (database contents, barcode-library failures, document
write failures) are represented by a `World` parameter; console prints and
library calls are recorded as `Event`s; an uncaught Python exception is an
`Except.error`. Events emitted before an uncaught exception are not
tracked, since no claim depends on them.
-/

namespace Barcodes

/-- Configuration constants, from the CONFIGURATIE block of the script. -/
def DB_FILE : String := "inventaris.sqlite"

def PDF_FILENAME : String := "inventaris_barcodes.pdf"

def TEMP_IMG_DIR : String := "temp_barcodes"

/-- A raw row of the `laptops` table: both columns are nullable text. -/
structure DbRow where
  serial : Option String
  device_name : Option String
deriving Repr, DecidableEq

/-- A qualifying record as produced by the loader query. -/
structure InventoryRecord where
  serial : String
  device_name : Option String
deriving Repr, DecidableEq

/-- A cell of the PDF table: the Python code uses `[img, p_text]` for a
filled cell and the empty list `[]` for the padding cell. -/
inductive Cell where
  | empty : Cell
  | filled (img : String) (label : String) : Cell
deriving Repr, DecidableEq

/-- Observable actions of a run: console prints and library calls. -/
inductive Event where
  | printDbMissing : Event
  | printRecordCount (n : Nat) : Event
  | printNoData : Event
  | printPdfStart : Event
  | barcodeSaved (path : String) : Event
  | docBuild (grid : List (List Cell)) : Event
  | printSuccess : Event
  | printBuildError (cause : String) : Event
deriving Repr, DecidableEq

/-- Environment of a run: whether `DB_FILE` exists, the rows of the
`laptops` table, and the outcomes of the two fallible library calls
(`Code128(...).save` per serial, and `doc.build`). -/
structure World where
  dbExists : Bool
  dbRows : List DbRow
  encodeError : String → Option String
  buildError : Option String

/-- The WHERE clause of the loader query:
`serial IS NOT NULL AND serial != ''`. -/
def qualifies (row : DbRow) : Bool :=
  match row.serial with
  | none => false
  | some s => s ≠ ""

/-- `get_data_from_db`: if the database file is missing, print a not-found
message and return an empty DataFrame; otherwise run the filtered query
and return its rows in table order. -/
def get_data_from_db (w : World) : List InventoryRecord × List Event :=
  if w.dbExists then
    ((w.dbRows.filter qualifies).map fun row =>
      { serial := row.serial.getD "", device_name := row.device_name }, [])
  else
    ([], [Event.printDbMissing])

/-- Python `c.isalnum()` test used by the sanitizer (ASCII fragment). -/
def pyIsAlnum (c : Char) : Bool := c.isAlphanum

/-- `safe_sn`: every non-alphanumeric character of the serial is replaced
by an underscore. -/
def safe_sn (serial : String) : String :=
  String.mk (serial.data.map fun c => if pyIsAlnum c then c else '_')

/-- `os.path.join(outdir, name)`. -/
def pathJoin (dir name : String) : String := dir ++ "/" ++ name

/-- The options dict passed to `code.save` (lines 40-45 of the script). -/
structure BarcodeOptions where
  write_text : Bool
  font_size : Nat
  module_height : ℚ
  quiet_zone : ℚ
deriving Repr, DecidableEq

def barcodeSaveOptions : BarcodeOptions :=
  { write_text := true, font_size := 8, module_height := 10, quiet_zone := 1 }

/-- Result of a successful `code.save`: the path written (the library
appends the image-format extension to `path` itself), the encoded payload
and the rendering options used. -/
structure SavedBarcode where
  path : String
  payload : String
  options : BarcodeOptions
deriving Repr, DecidableEq

/-- `generate_temp_barcode(serial, outdir)`: sanitize the serial into a
base filename, join it to the output directory, and render the Code-128
symbol there. Encoding failure raises (propagates as `Except.error`). -/
def generate_temp_barcode (w : World) (serial outdir : String) :
    Except String SavedBarcode :=
  let file_path := pathJoin outdir (safe_sn serial)
  match w.encodeError serial with
  | some e => Except.error e
  | none =>
      Except.ok { path := file_path, payload := serial,
                  options := barcodeSaveOptions }

/-- The label text used in a record's cell:
`item['device_name'] if item['device_name'] else "Onbekend device"`
(`None` and the empty string are falsy in Python). -/
def labelOf (r : InventoryRecord) : String :=
  match r.device_name with
  | none => "Onbekend device"
  | some s => if s = "" then "Onbekend device" else s

/-- The cell a record contributes on the success path: barcode image from
the scratch directory plus the label. -/
def cellOf (r : InventoryRecord) : Cell :=
  Cell.filled (pathJoin TEMP_IMG_DIR (safe_sn r.serial)) (labelOf r)

/-- The row-accumulation loop of `create_pdf` (lines 79-111): append each
cell to the current row, flush the row into the table once it has two
cells, and pad a leftover single cell with one empty cell at the end. -/
def gridLoop : List Cell → List Cell → List (List Cell)
  | row, [] => if row.isEmpty then [] else [row ++ [Cell.empty]]
  | row, c :: cs =>
      if (row ++ [c]).length = 2 then (row ++ [c]) :: gridLoop [] cs
      else gridLoop (row ++ [c]) cs

/-- The `table_data` grid built by `create_pdf` for a record list, on the
path where every barcode generation succeeds. -/
def table_data (records : List InventoryRecord) : List (List Cell) :=
  gridLoop [] (records.map cellOf)

/-- The per-record half of `create_pdf`'s loop: generate each record's
barcode in order, collecting the cells and save events; the first
encoding failure propagates. -/
def processRecords (w : World) :
    List InventoryRecord → Except String (List Cell × List Event)
  | [] => Except.ok ([], [])
  | r :: rs =>
      match generate_temp_barcode w r.serial TEMP_IMG_DIR with
      | Except.error e => Except.error e
      | Except.ok saved =>
          match processRecords w rs with
          | Except.error e => Except.error e
          | Except.ok (cells, evs) =>
              Except.ok (Cell.filled saved.path (labelOf r) :: cells,
                         Event.barcodeSaved saved.path :: evs)

/-- The reportlab `mm` unit in points (72 points per inch, 25.4 mm per
inch). -/
def mm : ℚ := 72 / (254 / 10)

/-- `col_width = 90*mm`. -/
def col_width : ℚ := 90 * mm

/-- `colWidths=[col_width, col_width]`: the two columns of the table. -/
def tableColWidths : List ℚ := [col_width, col_width]

/-- `create_pdf(df)`: print the start message, run the per-record loop,
assemble the grid, call `doc.build` inside try/except — a build failure is
printed together with its cause and swallowed, never re-raised. -/
def create_pdf (w : World) (records : List InventoryRecord) :
    Except String (List Event) :=
  match processRecords w records with
  | Except.error e => Except.error e
  | Except.ok (cells, evs) =>
      let grid := gridLoop [] cells
      match w.buildError with
      | none =>
          Except.ok (Event.printPdfStart :: evs ++
            [Event.docBuild grid, Event.printSuccess])
      | some e =>
          Except.ok (Event.printPdfStart :: evs ++
            [Event.docBuild grid, Event.printBuildError e])

/-- `main()`: load the data, print the record count, and either build the
PDF (non-empty result) or print that there is no data to process. -/
def main (w : World) : Except String (List Event) :=
  let df := (get_data_from_db w).1
  let evs0 := (get_data_from_db w).2
  if df.isEmpty then
    Except.ok (evs0 ++ [Event.printRecordCount df.length, Event.printNoData])
  else
    match create_pdf w df with
    | Except.error e => Except.error e
    | Except.ok evs =>
        Except.ok (evs0 ++ [Event.printRecordCount df.length] ++ evs)

/-- Structural companion of `gridLoop [] ·`: cells paired two by two, a
trailing odd cell padded with one empty cell. -/
def pairRows : List Cell → List (List Cell)
  | [] => []
  | [c] => [[c, Cell.empty]]
  | c1 :: c2 :: cs => [c1, c2] :: pairRows cs

/-- A concrete 5-row database table: three qualifying rows, one with a
NULL serial and one with an empty serial. -/
def demoRows : List DbRow :=
  [{ serial := some "ABC123", device_name := some "Laptop A" },
   { serial := some "XYZ789", device_name := none },
   { serial := none, device_name := some "Ghost" },
   { serial := some "", device_name := some "NoSerial" },
   { serial := some "QQ-7", device_name := some "Scanner" }]

/-- The qualifying records of `demoRows`, used by the witnesses. -/
def demoRecords : List InventoryRecord :=
  [{ serial := "ABC123", device_name := some "Laptop A" },
   { serial := "XYZ789", device_name := none },
   { serial := "QQ-7", device_name := some "Scanner" }]

/-- World where everything succeeds. -/
def wOk : World :=
  { dbExists := true, dbRows := demoRows,
    encodeError := fun _ => none, buildError := none }

/-- World where the database file is missing. -/
def wMissing : World :=
  { dbExists := false, dbRows := demoRows,
    encodeError := fun _ => none, buildError := none }

/-- World where the database exists but holds no qualifying row. -/
def wEmpty : World :=
  { dbExists := true,
    dbRows := [{ serial := none, device_name := some "Ghost" }],
    encodeError := fun _ => none, buildError := none }

/-- World where `doc.build` fails. -/
def wBuildFail : World :=
  { dbExists := true, dbRows := demoRows,
    encodeError := fun _ => none, buildError := some "disk full" }

/-- World where barcode encoding fails for one specific serial. -/
def wEncodeFail : World :=
  { dbExists := true, dbRows := demoRows,
    encodeError := fun s => if s = "XYZ789" then some "invalid payload" else none,
    buildError := none }

theorem gridLoop_cons_cons (c1 c2 : Cell) (cs : List Cell) :
    gridLoop [] (c1 :: c2 :: cs) = [c1, c2] :: gridLoop [] cs := rfl

theorem gridLoop_eq_pairRows (cs : List Cell) : gridLoop [] cs = pairRows cs := by
  induction cs using pairRows.induct with
  | case1 => rfl
  | case2 c => rfl
  | case3 c1 c2 cs ih => rw [gridLoop_cons_cons, ih]; rfl

theorem pairRows_length (cs : List Cell) :
    (pairRows cs).length = (cs.length + 1) / 2 := by
  induction cs using pairRows.induct with
  | case1 => rfl
  | case2 c => simp [pairRows]
  | case3 c1 c2 cs ih =>
      simp only [pairRows, List.length_cons, ih]
      omega

theorem pairRows_forall_length (cs : List Cell) :
    ∀ row ∈ pairRows cs, row.length = 2 := by
  induction cs using pairRows.induct with
  | case1 => intro row h; simp [pairRows] at h
  | case2 c =>
      intro row h
      simp only [pairRows, List.mem_singleton] at h
      subst h; rfl
  | case3 c1 c2 cs ih =>
      intro row h
      simp only [pairRows, List.mem_cons] at h
      rcases h with h | h
      · subst h; rfl
      · exact ih row h

theorem pairRows_getElem (cs : List Cell) :
    ∀ i, i < cs.length →
      ((pairRows cs)[i / 2]?.bind fun row => row[i % 2]?) = cs[i]? := by
  induction cs using pairRows.induct with
  | case1 => intro i hi; simp at hi
  | case2 c =>
      intro i hi
      obtain rfl : i = 0 := by simpa using hi
      rfl
  | case3 c1 c2 cs ih =>
      intro i hi
      match i with
      | 0 =>
          show (([c1, c2] :: pairRows cs)[0 / 2]?.bind fun row => row[0 % 2]?) = _
          simp
      | 1 =>
          show (([c1, c2] :: pairRows cs)[1 / 2]?.bind fun row => row[1 % 2]?) = _
          simp
      | (k + 2) =>
          have h2 : (k + 2) / 2 = k / 2 + 1 := by omega
          rw [show pairRows (c1 :: c2 :: cs) = [c1, c2] :: pairRows cs from rfl,
            h2, Nat.add_mod_right]
          simp only [List.getElem?_cons_succ]
          exact ih k (by simp only [List.length_cons] at hi; omega)

theorem pairRows_ne_nil (cs : List Cell) (h : cs ≠ []) : pairRows cs ≠ [] := by
  match cs with
  | [] => exact absurd rfl h
  | [c] => simp [pairRows]
  | c1 :: c2 :: cs => simp [pairRows]

theorem pairRows_getLast (cs : List Cell)
    (hfill : ∀ c ∈ cs, c ≠ Cell.empty) (hne : cs ≠ []) :
    ∃ lr, (pairRows cs).getLast? = some lr ∧
      (lr[1]? = some Cell.empty ↔ Odd cs.length) := by
  induction cs using pairRows.induct with
  | case1 => exact absurd rfl hne
  | case2 c => exact ⟨[c, Cell.empty], rfl, ⟨fun _ => odd_one, fun _ => rfl⟩⟩
  | case3 c1 c2 cs ih =>
      rcases eq_or_ne cs [] with rfl | hcs
      · refine ⟨[c1, c2], rfl, ?_, ?_⟩
        · intro h
          have hc2 : c2 ≠ Cell.empty := hfill c2 (by simp)
          simp only [List.getElem?_cons_succ, List.getElem?_cons_zero,
            Option.some.injEq] at h
          exact absurd h hc2
        · intro h
          rw [Nat.odd_iff] at h
          simp at h
      · have hfill' : ∀ c ∈ cs, c ≠ Cell.empty :=
          fun c hc => hfill c (by simp [hc])
        obtain ⟨lr, hlast, hiff⟩ := ih hfill' hcs
        obtain ⟨hd, tl, hpr⟩ := List.exists_cons_of_ne_nil (pairRows_ne_nil cs hcs)
        refine ⟨lr, ?_, ?_⟩
        · rw [show pairRows (c1 :: c2 :: cs) = [c1, c2] :: pairRows cs from rfl,
            hpr, List.getLast?_cons_cons, ← hpr, hlast]
        · have hodd : Odd (cs.length + 2) ↔ Odd cs.length := by
            rw [Nat.odd_iff, Nat.odd_iff, Nat.add_mod_right]
          exact hiff.trans hodd.symm

/-- C1: for every list of N qualifying records, the grid built by
`create_pdf` has ceil(N/2) rows of exactly 2 slots each; the last slot is
empty iff N is odd; and record i occupies row i / 2, column i % 2, in the
order the records were read (no sort). -/
theorem claim1_grid_shape (records : List InventoryRecord) :
    (table_data records).length = (records.length + 1) / 2 ∧
    (∀ row ∈ table_data records, row.length = 2) ∧
    (records ≠ [] →
      ∃ lr, (table_data records).getLast? = some lr ∧
        (lr[1]? = some Cell.empty ↔ Odd records.length)) ∧
    (∀ i, i < records.length →
      ((table_data records)[i / 2]?.bind fun row => row[i % 2]?) =
        records[i]?.map cellOf) := by
  unfold table_data
  rw [gridLoop_eq_pairRows]
  refine ⟨?_, pairRows_forall_length _, ?_, ?_⟩
  · rw [pairRows_length, List.length_map]
  · intro hne
    have hfill : ∀ c ∈ records.map cellOf, c ≠ Cell.empty := by
      intro c hc
      simp only [List.mem_map] at hc
      obtain ⟨r, _, rfl⟩ := hc
      simp [cellOf]
    have hne' : records.map cellOf ≠ [] := by
      simpa using hne
    obtain ⟨lr, h1, h2⟩ := pairRows_getLast _ hfill hne'
    exact ⟨lr, h1, by simpa using h2⟩
  · intro i hi
    rw [pairRows_getElem _ i (by simpa using hi)]
    simp [List.getElem?_map]

/-- Witness for C1 at the concrete 3-record dataset: 2 rows, the last
slot empty (3 is odd), and record 2 sits at row 1, column 0. -/
theorem claim1_grid_shape_witness :
    (table_data demoRecords).length = 2 ∧
    (∃ lr, (table_data demoRecords).getLast? = some lr ∧
      (lr[1]? = some Cell.empty ↔ Odd demoRecords.length)) ∧
    ((table_data demoRecords)[2 / 2]?.bind fun row => row[2 % 2]?) =
      demoRecords[2]?.map cellOf := by
  have h := claim1_grid_shape demoRecords
  exact ⟨h.1, h.2.2.1 (by decide), h.2.2.2 2 (by decide)⟩

/-- C2 as stated is false on the code: for a record with a missing device
name the label rendered in its cell is the Dutch literal
"Onbekend device", not "Unknown device". -/
theorem claim2_counterexample :
    cellOf { serial := "S1", device_name := none } =
      Cell.filled "temp_barcodes/S1" "Onbekend device" ∧
    labelOf { serial := "S1", device_name := none } ≠ "Unknown device" := by
  constructor
  · rfl
  · decide

/-- C2 (amended): for every record whose device_name is missing (null) or
empty the label rendered in that record's cell is the placeholder
"Onbekend device"; for a record with a non-empty device_name the label is
that device_name. -/
theorem claim2_label (r : InventoryRecord) :
    ((r.device_name = none ∨ r.device_name = some "") →
      labelOf r = "Onbekend device") ∧
    (∀ s, r.device_name = some s → s ≠ "" → labelOf r = s) ∧
    cellOf r = Cell.filled (pathJoin TEMP_IMG_DIR (safe_sn r.serial)) (labelOf r) := by
  refine ⟨?_, ?_, rfl⟩
  · rintro (h | h) <;> simp [labelOf, h]
  · intro s hs hne
    simp [labelOf, hs, hne]

/-- Witness for the amended C2: a missing name yields the placeholder, a
non-empty name is kept verbatim. -/
theorem claim2_label_witness :
    labelOf { serial := "XYZ789", device_name := none } = "Onbekend device" ∧
    labelOf { serial := "ABC123", device_name := some "Laptop A" } = "Laptop A" :=
  ⟨(claim2_label _).1 (Or.inl rfl),
   (claim2_label _).2.1 "Laptop A" rfl (by decide)⟩

/-- On the success path the per-record loop of `create_pdf` produces
exactly one cell and one saved barcode per record, in order. -/
theorem processRecords_ok (w : World) (records : List InventoryRecord)
    (h : ∀ r ∈ records, w.encodeError r.serial = none) :
    processRecords w records =
      Except.ok (records.map cellOf,
        records.map fun r =>
          Event.barcodeSaved (pathJoin TEMP_IMG_DIR (safe_sn r.serial))) := by
  induction records with
  | nil => rfl
  | cons r rs ih =>
      have hr : w.encodeError r.serial = none := h r (by simp)
      have hrs : ∀ r' ∈ rs, w.encodeError r'.serial = none :=
        fun r' h' => h r' (by simp [h'])
      simp only [processRecords, generate_temp_barcode, hr, ih hrs, List.map_cons]
      rfl

/-- C3: when encoding succeeds for every record, the loop generates
exactly one barcode image per record (save events equal records in number
and order), each saved under the scratch directory with base filename the
record's serial sanitized character by character: an alphanumeric
character is kept, every other character is replaced by an underscore,
and the length is preserved. -/
theorem claim3_images (w : World) (records : List InventoryRecord)
    (h : ∀ r ∈ records, w.encodeError r.serial = none) :
    (∃ cells evs, processRecords w records = Except.ok (cells, evs) ∧
      evs.length = records.length ∧
      ∀ i, i < records.length →
        evs[i]? = records[i]?.map fun r =>
          Event.barcodeSaved (pathJoin TEMP_IMG_DIR (safe_sn r.serial))) ∧
    (∀ s : String, (safe_sn s).data.length = s.data.length ∧
      ∀ i : Nat, (safe_sn s).data[i]? =
        (s.data[i]?.map fun c => if pyIsAlnum c then c else '_')) := by
  constructor
  · refine ⟨_, _, processRecords_ok w records h, by simp, ?_⟩
    intro i hi
    simp [List.getElem?_map]
  · intro s
    constructor
    · simp [safe_sn]
    · intro i
      simp [safe_sn, List.getElem?_map]

/-- Witness for C3 at the concrete world and dataset. -/
theorem claim3_images_witness :
    (∃ cells evs, processRecords wOk demoRecords = Except.ok (cells, evs) ∧
      evs.length = demoRecords.length ∧
      ∀ i, i < demoRecords.length →
        evs[i]? = demoRecords[i]?.map fun r =>
          Event.barcodeSaved (pathJoin TEMP_IMG_DIR (safe_sn r.serial))) ∧
    (∀ s : String, (safe_sn s).data.length = s.data.length ∧
      ∀ i : Nat, (safe_sn s).data[i]? =
        (s.data[i]?.map fun c => if pyIsAlnum c then c else '_')) :=
  claim3_images wOk demoRecords (fun _ _ => rfl)

/-- C9: the barcode save options are exactly text-under-bars, font size
8, module height 10.0 and quiet zone 1.0 — these are the options every
successful `generate_temp_barcode` call passes to the writer — and the
document table has two columns of 90 mm each. -/
theorem claim9_constants :
    barcodeSaveOptions.write_text = true ∧
    barcodeSaveOptions.font_size = 8 ∧
    barcodeSaveOptions.module_height = 10 ∧
    barcodeSaveOptions.quiet_zone = 1 ∧
    tableColWidths = [90 * mm, 90 * mm] ∧
    (∀ w s o sv, generate_temp_barcode w s o = Except.ok sv →
      sv.options = barcodeSaveOptions) := by
  refine ⟨rfl, rfl, rfl, rfl, rfl, ?_⟩
  intro w s o sv h
  cases he : w.encodeError s with
  | some e => simp [generate_temp_barcode, he] at h
  | none =>
      simp only [generate_temp_barcode, he] at h
      cases h
      rfl

/-- Witness for C9: a concrete successful generation uses exactly the
fixed option set. -/
theorem claim9_constants_witness :
    ∃ sv, generate_temp_barcode wOk "QQ-7" TEMP_IMG_DIR = Except.ok sv ∧
      sv.options = barcodeSaveOptions :=
  ⟨_, rfl, claim9_constants.2.2.2.2.2 wOk "QQ-7" TEMP_IMG_DIR _ rfl⟩

/-- C10: filename sanitization is not injective — the distinct serials
"A-1" and "A.1" are mapped to the same file path, so the second record's
image overwrites the first one's and both cells of the resulting grid
reference the same asset. -/
theorem claim10_collision :
    ("A-1" : String) ≠ "A.1" ∧
    pathJoin TEMP_IMG_DIR (safe_sn "A-1") = pathJoin TEMP_IMG_DIR (safe_sn "A.1") ∧
    table_data
      [{ serial := "A-1", device_name := some "Laptop" },
       { serial := "A.1", device_name := some "Tablet" }] =
      [[Cell.filled "temp_barcodes/A_1" "Laptop",
        Cell.filled "temp_barcodes/A_1" "Tablet"]] := by
  refine ⟨by decide, by decide, by decide⟩

theorem get_data_events (w : World) :
    (get_data_from_db w).2 = [] ∨
      (get_data_from_db w).2 = [Event.printDbMissing] := by
  unfold get_data_from_db
  by_cases hw : w.dbExists <;> simp [hw]

/-- C4: when the loader returns zero qualifying records, main reports the
count and the no-data message and exits normally; the document assembler
is never invoked (no pdf-start and no build call appears in the trace). -/
theorem claim4_empty (w : World) (h : (get_data_from_db w).1 = []) :
    main w = Except.ok ((get_data_from_db w).2 ++
      [Event.printRecordCount 0, Event.printNoData]) ∧
    Event.printPdfStart ∉ ((get_data_from_db w).2 ++
      [Event.printRecordCount 0, Event.printNoData]) ∧
    ∀ g, Event.docBuild g ∉ ((get_data_from_db w).2 ++
      [Event.printRecordCount 0, Event.printNoData]) := by
  refine ⟨?_, ?_, ?_⟩
  · unfold main
    simp [h]
  · rcases get_data_events w with h2 | h2 <;> simp [h2]
  · intro g
    rcases get_data_events w with h2 | h2 <;> simp [h2]

/-- Witness for C4: a database with only a NULL-serial row yields zero
records, a normal exit and no document build. -/
theorem claim4_empty_witness :
    main wEmpty = Except.ok ((get_data_from_db wEmpty).2 ++
      [Event.printRecordCount 0, Event.printNoData]) ∧
    Event.printPdfStart ∉ ((get_data_from_db wEmpty).2 ++
      [Event.printRecordCount 0, Event.printNoData]) ∧
    ∀ g, Event.docBuild g ∉ ((get_data_from_db wEmpty).2 ++
      [Event.printRecordCount 0, Event.printNoData]) :=
  claim4_empty wEmpty (by decide)

/-- C5: a missing database file is reported by the loader, which returns
an empty result rather than an error; the program then exits normally and
never builds a document. -/
theorem claim5_missing_db (w : World) (h : w.dbExists = false) :
    get_data_from_db w = ([], [Event.printDbMissing]) ∧
    main w = Except.ok [Event.printDbMissing, Event.printRecordCount 0,
      Event.printNoData] ∧
    ∀ g, Event.docBuild g ∉ [Event.printDbMissing, Event.printRecordCount 0,
      Event.printNoData] := by
  have h1 : get_data_from_db w = ([], [Event.printDbMissing]) := by
    unfold get_data_from_db
    simp [h]
  refine ⟨h1, ?_, ?_⟩
  · unfold main
    simp [h1]
  · intro g
    simp

/-- Witness for C5 at a concrete world whose database file is absent. -/
theorem claim5_missing_db_witness :
    get_data_from_db wMissing = ([], [Event.printDbMissing]) ∧
    main wMissing = Except.ok [Event.printDbMissing, Event.printRecordCount 0,
      Event.printNoData] ∧
    ∀ g, Event.docBuild g ∉ [Event.printDbMissing, Event.printRecordCount 0,
      Event.printNoData] :=
  claim5_missing_db wMissing rfl

/-- C6: when the database file exists the loader returns exactly the rows
whose serial is present (not NULL) and non-empty, as
(serial, device_name) pairs in query-result order, and every returned
record has a non-empty serial. -/
theorem claim6_loader (w : World) (hdb : w.dbExists = true) :
    ((get_data_from_db w).1.map fun r =>
        ((some r.serial : Option String), r.device_name)) =
      (w.dbRows.filter qualifies).map (fun row => (row.serial, row.device_name)) ∧
    ∀ r ∈ (get_data_from_db w).1, r.serial ≠ "" := by
  constructor
  · simp only [get_data_from_db, hdb, if_true, List.map_map]
    refine List.map_congr_left ?_
    intro row hrow
    have hq : qualifies row = true := (List.mem_filter.mp hrow).2
    cases hs : row.serial with
    | none => simp [qualifies, hs] at hq
    | some s => simp [Function.comp, hs]
  · intro r hr
    simp only [get_data_from_db, hdb, if_true, List.mem_map] at hr
    obtain ⟨row, hrow, rfl⟩ := hr
    have hq : qualifies row = true := (List.mem_filter.mp hrow).2
    cases hs : row.serial with
    | none => simp [qualifies, hs] at hq
    | some s =>
        simp only [qualifies, hs, decide_eq_true_eq] at hq
        simpa [hs] using hq

/-- Witness for C6 at the concrete 5-row table: the NULL-serial and
empty-serial rows are dropped, the other three kept in order. -/
theorem claim6_loader_witness :
    ((get_data_from_db wOk).1.map fun r =>
        ((some r.serial : Option String), r.device_name)) =
      (wOk.dbRows.filter qualifies).map (fun row => (row.serial, row.device_name)) ∧
    ∀ r ∈ (get_data_from_db wOk).1, r.serial ≠ "" :=
  claim6_loader wOk rfl

/-- C7: when doc.build fails, the failure is caught at that single call,
reported together with its cause, and not re-raised: create_pdf returns
normally and so does main. -/
theorem claim7_write_failure (w : World) (records : List InventoryRecord)
    (e : String) (hb : w.buildError = some e)
    (henc : ∀ r ∈ records, w.encodeError r.serial = none) :
    (∃ evs, create_pdf w records = Except.ok evs ∧
      Event.printBuildError e ∈ evs) ∧
    (records ≠ [] → (get_data_from_db w).1 = records →
      ∃ evs, main w = Except.ok evs ∧ Event.printBuildError e ∈ evs) := by
  have hcp : create_pdf w records = Except.ok
      (Event.printPdfStart :: (records.map fun r =>
        Event.barcodeSaved (pathJoin TEMP_IMG_DIR (safe_sn r.serial))) ++
        [Event.docBuild (gridLoop [] (records.map cellOf)),
         Event.printBuildError e]) := by
    unfold create_pdf
    simp only [processRecords_ok w records henc, hb]
  refine ⟨⟨_, hcp, by simp⟩, ?_⟩
  intro hne hrec
  refine ⟨(get_data_from_db w).2 ++
    [Event.printRecordCount records.length] ++
    (Event.printPdfStart :: (records.map fun r =>
      Event.barcodeSaved (pathJoin TEMP_IMG_DIR (safe_sn r.serial))) ++
      [Event.docBuild (gridLoop [] (records.map cellOf)),
       Event.printBuildError e]), ?_, by simp⟩
  unfold main
  rw [hrec]
  cases records with
  | nil => exact absurd rfl hne
  | cons a l => simp [hcp]

/-- Witness for C7: a concrete failing doc.build is reported and the
process still ends normally. -/
theorem claim7_write_failure_witness :
    ∃ evs, main wBuildFail = Except.ok evs ∧
      Event.printBuildError "disk full" ∈ evs :=
  (claim7_write_failure wBuildFail demoRecords "disk full" rfl
    (fun _ _ => rfl)).2 (by decide) (by decide)

theorem processRecords_error (w : World) (post : List InventoryRecord)
    (r : InventoryRecord) (e : String)
    (hr : w.encodeError r.serial = some e) :
    ∀ pre : List InventoryRecord,
      (∀ r' ∈ pre, w.encodeError r'.serial = none) →
      processRecords w (pre ++ r :: post) = Except.error e := by
  intro pre
  induction pre with
  | nil =>
      intro _
      simp only [List.nil_append, processRecords, generate_temp_barcode, hr]
  | cons a l ih =>
      intro hpre
      have ha : w.encodeError a.serial = none := hpre a (by simp)
      have hl : ∀ r' ∈ l, w.encodeError r'.serial = none :=
        fun r' h' => hpre r' (by simp [h'])
      simp only [List.cons_append, processRecords, generate_temp_barcode, ha,
        List.append_eq, ih hl]

/-- C8: the first record whose serial fails to encode aborts the whole
run: the error propagates uncaught out of generate_temp_barcode, out of
the per-record loop of create_pdf, and out of main; the record is not
silently dropped. -/
theorem claim8_encode_failure (w : World) (pre post : List InventoryRecord)
    (r : InventoryRecord) (e : String)
    (hpre : ∀ r' ∈ pre, w.encodeError r'.serial = none)
    (hr : w.encodeError r.serial = some e) :
    processRecords w (pre ++ r :: post) = Except.error e ∧
    create_pdf w (pre ++ r :: post) = Except.error e ∧
    ((get_data_from_db w).1 = pre ++ r :: post → main w = Except.error e) := by
  have hproc := processRecords_error w post r e hr pre hpre
  have hcpdf : create_pdf w (pre ++ r :: post) = Except.error e := by
    unfold create_pdf
    rw [hproc]
  refine ⟨hproc, hcpdf, ?_⟩
  intro hrec
  have hne : pre ++ r :: post ≠ [] := by simp
  have hie : (pre ++ r :: post).isEmpty = false := by
    cases hpp : pre ++ r :: post with
    | nil => exact absurd hpp hne
    | cons a l => rfl
  unfold main
  rw [hrec]
  simp [hie, hcpdf]

/-- Witness for C8: in a world where "XYZ789" fails to encode, the whole
run aborts with that error. -/
theorem claim8_encode_failure_witness :
    main wEncodeFail = Except.error "invalid payload" :=
  (claim8_encode_failure wEncodeFail
    [{ serial := "ABC123", device_name := some "Laptop A" }]
    [{ serial := "QQ-7", device_name := some "Scanner" }]
    { serial := "XYZ789", device_name := none } "invalid payload"
    (by decide) (by decide)).2.2 (by decide)

end Barcodes
